import Mathlib

/-!
Shallow embedding of the ModelAdaptor backend (schema, in-memory storage and
the Express route handlers), together with theorems checking the
natural-language specification against it.

The embedding mirrors the TypeScript source:
* the drizzle `pgTable` schemas become Lean structures (nullable columns are
  `Option`, `serial` ids are `Nat`, `timestamp` is an abstract `Nat` tick);
* `MemStorage` (JS `Map`s iterated in insertion order) becomes a record of
  lists, updated in place on `set` of an existing key and appended on a fresh
  key, together with the monotone id counters;
* route handlers become pure functions from a storage state (plus the ambient
  clock and the outcome of the external model call) to the new storage state
  and the HTTP result.
-/

namespace ModelAdaptor

/-- A role-tagged chat message, as stored in `conversations.messages`. -/
structure Message where
  role : String
  content : String
deriving Repr, DecidableEq

/-- A row of the `wrappers` table (`type Wrapper = typeof wrappers.$inferSelect`).
Columns without `notNull()` are nullable, hence `Option`; `undefined` and
`null` are both modelled as `none`. -/
structure Wrapper where
  id : Nat
  name : String
  description : Option String
  baseModel : String
  systemPrompt : Option String
  temperature : Option Int
  maxTokens : Option Int
  topP : Option Int
  enableMemory : Option Bool
  knowledgeBaseIntegration : Option Bool
  webSearchAccess : Option Bool
  userId : Nat
  createdAt : Nat
deriving Repr, DecidableEq

/-- A row of the `prompts` table. -/
structure Prompt where
  id : Nat
  name : String
  content : String
  description : Option String
  wrapperId : Nat
  tags : Option (List String)
  createdAt : Nat
deriving Repr, DecidableEq

/-- A row of the `integrations` table; the untyped JSON `config` column is
kept opaque as a string. -/
structure Integration where
  id : Nat
  name : String
  type : String
  config : String
  wrapperId : Nat
  createdAt : Nat
deriving Repr, DecidableEq

/-- A row of the `conversations` table; `messages` is the JSON array of
role-tagged messages. -/
structure Conversation where
  id : Nat
  wrapperId : Nat
  messages : List Message
  createdAt : Nat
deriving Repr, DecidableEq

/-- Embeds `InsertWrapper = z.infer<typeof insertWrapperSchema>`: the validated
create payload, with `id`/`createdAt` omitted.  Fields whose columns carry a
database default or are nullable are optional in the zod schema; parsing does
NOT fill the database defaults, so an absent field stays absent (`none`). -/
structure InsertWrapper where
  name : String
  description : Option String := none
  baseModel : String
  systemPrompt : Option String := none
  temperature : Option Int := none
  maxTokens : Option Int := none
  topP : Option Int := none
  enableMemory : Option Bool := none
  knowledgeBaseIntegration : Option Bool := none
  webSearchAccess : Option Bool := none
  userId : Nat
deriving Repr, DecidableEq

/-- The validated `InsertPrompt` payload. -/
structure InsertPrompt where
  name : String
  content : String
  description : Option String := none
  wrapperId : Nat
  tags : Option (List String) := none
deriving Repr, DecidableEq

/-- The validated `InsertConversation` payload. -/
structure InsertConversation where
  wrapperId : Nat
  messages : List Message
deriving Repr, DecidableEq

/-- Embeds `insertWrapperSchema.partial()`: every field may be absent.  `none` means
the field was not supplied; `some v` means it was supplied with value `v`
(which for a nullable column may itself be `none`, i.e. an explicit null). -/
structure UpdateWrapper where
  name : Option String := none
  description : Option (Option String) := none
  baseModel : Option String := none
  systemPrompt : Option (Option String) := none
  temperature : Option (Option Int) := none
  maxTokens : Option (Option Int) := none
  topP : Option (Option Int) := none
  enableMemory : Option (Option Bool) := none
  knowledgeBaseIntegration : Option (Option Bool) := none
  webSearchAccess : Option (Option Bool) := none
  userId : Option Nat := none
deriving Repr, DecidableEq

/-- The `MemStorage` state: one list per entity `Map` (in JS `Map` iteration
order, i.e. insertion order) plus the current id counters. -/
structure MemStorage where
  wrappers : List Wrapper
  prompts : List Prompt
  integrations : List Integration
  conversations : List Conversation
  currentWrapperId : Nat
  currentPromptId : Nat
  currentIntegrationId : Nat
  currentConversationId : Nat
deriving Repr, DecidableEq

/-- The freshly constructed store (demo-data seeding aside): empty maps,
all counters at 1. -/
def emptyStorage : MemStorage :=
  { wrappers := [], prompts := [], integrations := [], conversations := []
    currentWrapperId := 1, currentPromptId := 1
    currentIntegrationId := 1, currentConversationId := 1 }

/-- Embeds `MemStorage.getWrapper`: `this.wrappers.get(id)`. -/
def getWrapper (st : MemStorage) (id : Nat) : Option Wrapper :=
  st.wrappers.find? (fun w => w.id == id)

/-- Embeds `MemStorage.createWrapper`: assigns the current counter as id, bumps the
counter, stamps `createdAt` and inserts `{ ...insertWrapper, id, createdAt }`.
No database default is applied here: absent optional fields stay absent. -/
def createWrapper (st : MemStorage) (iw : InsertWrapper) (now : Nat) :
    MemStorage × Wrapper :=
  let id := st.currentWrapperId
  let wrapper : Wrapper :=
    { id := id, name := iw.name, description := iw.description
      baseModel := iw.baseModel, systemPrompt := iw.systemPrompt
      temperature := iw.temperature, maxTokens := iw.maxTokens
      topP := iw.topP, enableMemory := iw.enableMemory
      knowledgeBaseIntegration := iw.knowledgeBaseIntegration
      webSearchAccess := iw.webSearchAccess
      userId := iw.userId, createdAt := now }
  ({ st with wrappers := st.wrappers ++ [wrapper], currentWrapperId := id + 1 },
   wrapper)

/-- Embeds `{ ...wrapper, ...updatedData }`: supplied fields override, omitted fields
keep the stored value; `id` and `createdAt` are not part of the payload. -/
def mergeWrapper (w : Wrapper) (u : UpdateWrapper) : Wrapper :=
  { id := w.id
    name := u.name.getD w.name
    description := u.description.getD w.description
    baseModel := u.baseModel.getD w.baseModel
    systemPrompt := u.systemPrompt.getD w.systemPrompt
    temperature := u.temperature.getD w.temperature
    maxTokens := u.maxTokens.getD w.maxTokens
    topP := u.topP.getD w.topP
    enableMemory := u.enableMemory.getD w.enableMemory
    knowledgeBaseIntegration := u.knowledgeBaseIntegration.getD w.knowledgeBaseIntegration
    webSearchAccess := u.webSearchAccess.getD w.webSearchAccess
    userId := u.userId.getD w.userId
    createdAt := w.createdAt }

/-- Embeds `MemStorage.updateWrapper`: look up; if absent return `undefined` leaving
the store alone, else `Map.set` the merged record back under the same key
(in-place replacement, insertion order preserved). -/
def updateWrapper (st : MemStorage) (id : Nat) (u : UpdateWrapper) :
    MemStorage × Option Wrapper :=
  match getWrapper st id with
  | none => (st, none)
  | some w =>
      let w2 := mergeWrapper w u
      ({ st with wrappers := st.wrappers.map (fun x => if x.id == id then w2 else x) },
       some w2)

/-- Embeds `MemStorage.deleteWrapper`: `this.wrappers.delete(id)`, returning whether
a record existed.  Only the `wrappers` map is touched. -/
def deleteWrapper (st : MemStorage) (id : Nat) : MemStorage × Bool :=
  ({ st with wrappers := st.wrappers.filter (fun w => !(w.id == id)) },
   st.wrappers.any (fun w => w.id == id))

/-- Embeds `MemStorage.createPrompt`. -/
def createPrompt (st : MemStorage) (ip : InsertPrompt) (now : Nat) :
    MemStorage × Prompt :=
  let id := st.currentPromptId
  let prompt : Prompt :=
    { id := id, name := ip.name, content := ip.content
      description := ip.description, wrapperId := ip.wrapperId
      tags := ip.tags, createdAt := now }
  ({ st with prompts := st.prompts ++ [prompt], currentPromptId := id + 1 },
   prompt)

/-- Embeds `MemStorage.getPromptsByWrapperId`: filter over `Map` values in insertion
order. -/
def getPromptsByWrapperId (st : MemStorage) (wrapperId : Nat) : List Prompt :=
  st.prompts.filter (fun p => p.wrapperId == wrapperId)

/-- Embeds `MemStorage.getIntegrationsByWrapperId`. -/
def getIntegrationsByWrapperId (st : MemStorage) (wrapperId : Nat) : List Integration :=
  st.integrations.filter (fun i => i.wrapperId == wrapperId)

/-- Embeds `MemStorage.getConversation`. -/
def getConversation (st : MemStorage) (id : Nat) : Option Conversation :=
  st.conversations.find? (fun c => c.id == id)

/-- Embeds `MemStorage.getConversationsByWrapperId`. -/
def getConversationsByWrapperId (st : MemStorage) (wrapperId : Nat) : List Conversation :=
  st.conversations.filter (fun c => c.wrapperId == wrapperId)

/-- Embeds `MemStorage.createConversation`. -/
def createConversation (st : MemStorage) (ic : InsertConversation) (now : Nat) :
    MemStorage × Conversation :=
  let id := st.currentConversationId
  let conversation : Conversation :=
    { id := id, wrapperId := ic.wrapperId, messages := ic.messages
      createdAt := now }
  ({ st with conversations := st.conversations ++ [conversation]
             currentConversationId := id + 1 },
   conversation)

/-- Replace the message list of the conversation stored under `id`.  This is
both the effect of `updateConversation(id, { messages })` (merge then
`Map.set` under the same key) and of an in-place mutation of the stored
`messages` array through a live reference. -/
def setConversationMessages (st : MemStorage) (id : Nat) (msgs : List Message) :
    MemStorage :=
  { st with conversations := st.conversations.map
              (fun c => if c.id == id then { c with messages := msgs } else c) }

/-- JS truthiness of `wrapper.systemPrompt` (a `string | null`): truthy iff
present and non-empty. -/
def systemPromptTruthy (w : Wrapper) : Bool :=
  match w.systemPrompt with
  | some s => s != ""
  | none => false

/-- The fixed base-model name mapping with fallback:
`wrapper.baseModel === "Gemini Pro" ? "gemini-pro" :
 (wrapper.baseModel === "Gemini Pro Vision" ? "gemini-pro-vision" : "gemini-pro")`. -/
def modelNameFor (baseModel : String) : String :=
  if baseModel == "Gemini Pro" then "gemini-pro"
  else if baseModel == "Gemini Pro Vision" then "gemini-pro-vision"
  else "gemini-pro"

/-- Embeds `generationConfig.temperature`: `wrapper.temperature ? wrapper.temperature / 100 : 0.7`.
`null` and `0` are both falsy in JS, so both fall back to the default. -/
def genTemperature (w : Wrapper) : Rat :=
  match w.temperature with
  | some t => if t != 0 then (t : Rat) / 100 else 7 / 10
  | none => 7 / 10

/-- Embeds `generationConfig.topP`: `wrapper.topP ? wrapper.topP / 100 : 0.9`. -/
def genTopP (w : Wrapper) : Rat :=
  match w.topP with
  | some p => if p != 0 then (p : Rat) / 100 else 9 / 10
  | none => 9 / 10

/-- Embeds `generationConfig.maxOutputTokens`: `wrapper.maxTokens || 2048`. -/
def genMaxOutputTokens (w : Wrapper) : Int :=
  match w.maxTokens with
  | some m => if m != 0 then m else 2048
  | none => 2048

/-- The `generationConfig` object passed to `model.startChat`. -/
structure GenerationConfig where
  temperature : Rat
  topP : Rat
  maxOutputTokens : Int
deriving Repr, DecidableEq

/-- Build the `generationConfig` for a wrapper. -/
def buildGenerationConfig (w : Wrapper) : GenerationConfig :=
  { temperature := genTemperature w
    topP := genTopP w
    maxOutputTokens := genMaxOutputTokens w }

/-- One provider-format message (`{ role, parts: [{ text }] }`), flattened to
its single text part. -/
structure GeminiMessage where
  role : String
  text : String
deriving Repr, DecidableEq

/-- The per-message translation to the provider format: a `system` entry
becomes a `user` entry with an explicit system-instruction annotation, `user`
maps directly, and any other role maps to the provider's `model` role. -/
def toGeminiMessage (msg : Message) : GeminiMessage :=
  if msg.role == "system" then
    { role := "user", text := "(System instruction: " ++ msg.content ++ ")" }
  else if msg.role == "user" then
    { role := "user", text := msg.content }
  else
    { role := "model", text := msg.content }

/-- The usage estimate returned with a successful chat response:
`Math.floor(length / 4)` for prompt and completion, and
`Math.floor((promptLength + completionLength) / 4)` for the total. -/
structure Usage where
  prompt_tokens : Nat
  completion_tokens : Nat
  total_tokens : Nat
deriving Repr, DecidableEq

/-- Embeds `estimatedUsage` as computed in the chat handler. -/
def estimatedUsage (message responseText : String) : Usage :=
  { prompt_tokens := message.length / 4
    completion_tokens := responseText.length / 4
    total_tokens := (message.length + responseText.length) / 4 }

/-- The parsed body of `POST /api/chat`. -/
structure ChatRequest where
  wrapperId : Nat
  message : String
  conversationId : Option Nat
deriving Repr, DecidableEq

/-- The JSON result of the chat endpoint: either the success payload or an
error status with its message. -/
inductive ChatResult where
  | ok (message : String) (conversationId : Nat) (usage : Usage) (model : String)
  | err (status : Nat) (error : String)
deriving Repr, DecidableEq

/-- Step 2-3 of the transcript assembly in the chat handler: starting from the
loaded (or empty) history, push a system message when the wrapper's
systemPrompt is truthy and the history is empty, then push the user turn. -/
def assembleMessages (w : Wrapper) (prior : List Message) (message : String) :
    List Message :=
  let withSystem :=
    if systemPromptTruthy w ∧ prior = [] then
      prior ++ [{ role := "system", content := w.systemPrompt.getD "" }]
    else prior
  withSystem ++ [{ role := "user", content := message }]

/-- The `POST /api/chat` handler.  `provider` is the outcome of
`chat.sendMessage` on the external model (`.ok responseText` or a thrown
error).  The JS `messages` array is the very array stored inside the loaded
`Conversation` object (`MemStorage` hands out live references), so the pushes
performed before the provider call are already visible in the store when the
call fails; this shows up below as the first `setConversationMessages`. -/
def chatHandler (st : MemStorage) (now : Nat) (req : ChatRequest)
    (provider : Except String String) : MemStorage × ChatResult :=
  if req.wrapperId = 0 ∨ req.message = "" then
    (st, .err 400 "Wrapper ID and message are required")
  else
    match getWrapper st req.wrapperId with
    | none => (st, .err 404 "Wrapper not found")
    | some wrapper =>
      let conversation : Option Conversation :=
        match req.conversationId with
        | some cid => if cid = 0 then none else getConversation st cid
        | none => none
      let prior : List Message :=
        match conversation with
        | some c => c.messages
        | none => []
      let assembled := assembleMessages wrapper prior req.message
      let st1 :=
        match conversation with
        | some c => setConversationMessages st c.id assembled
        | none => st
      match provider with
      | .error _ => (st1, .err 500 "Error communicating with AI model")
      | .ok responseText =>
          let final := assembled ++ [{ role := "assistant", content := responseText }]
          match conversation with
          | some c =>
              (setConversationMessages st1 c.id final,
               .ok responseText c.id (estimatedUsage req.message responseText)
                 (modelNameFor wrapper.baseModel))
          | none =>
              let created :=
                createConversation st1
                  { wrapperId := req.wrapperId, messages := final } now
              (created.1,
               .ok responseText created.2.id (estimatedUsage req.message responseText)
                 (modelNameFor wrapper.baseModel))

/-- The result of a create-under-parent endpoint. -/
inductive PostResult (α : Type) where
  | created (entity : α)
  | err (status : Nat)
deriving Repr, DecidableEq

/-- The `POST /api/wrappers/:wrapperId/prompts` handler after id parsing and
schema validation of the body: existence check on the wrapper, then create. -/
def postPromptHandler (st : MemStorage) (wrapperId : Nat) (body : InsertPrompt)
    (now : Nat) : MemStorage × PostResult Prompt :=
  match getWrapper st wrapperId with
  | none => (st, .err 404)
  | some _ =>
      let r := createPrompt st { body with wrapperId := wrapperId } now
      (r.1, .created r.2)

/-- The `POST /api/wrappers` handler after schema validation: the demo user id
is forced, then the validated payload is stored as-is. -/
def postWrapperHandler (st : MemStorage) (body : InsertWrapper) (now : Nat) :
    MemStorage × Wrapper :=
  createWrapper st { body with userId := 1 } now

/-- A store is conversation-fresh when no stored conversation already uses the
current conversation counter (every store reachable through the API is, since
ids are handed out below the counter). -/
def conversationIdFresh (st : MemStorage) : Bool :=
  st.conversations.all (fun c => c.id != st.currentConversationId)

/-- A wrapper with a non-empty system prompt. -/
def supportWrapper : Wrapper :=
  { id := 1, name := "Customer Support Assistant"
    description := some "Helps agents respond to inquiries."
    baseModel := "Gemini Pro"
    systemPrompt := some "You are a customer support assistant."
    temperature := some 70, maxTokens := some 2048, topP := some 90
    enableMemory := some true, knowledgeBaseIntegration := some true
    webSearchAccess := some false, userId := 1, createdAt := 0 }

/-- A wrapper with no system prompt. -/
def plainWrapper : Wrapper :=
  { id := 1, name := "Plain", description := none, baseModel := "Gemini Pro"
    systemPrompt := none, temperature := some 70, maxTokens := some 2048
    topP := some 90, enableMemory := some true
    knowledgeBaseIntegration := some false, webSearchAccess := some false
    userId := 1, createdAt := 0 }

/-- A wrapper whose stored sampling values are 0 (0 lies inside the declared
0-100 range, and the permissive validation accepts it). -/
def zeroSamplingWrapper : Wrapper :=
  { plainWrapper with temperature := some 0, topP := some 0 }

/-- A two-turn conversation belonging to wrapper 1. -/
def twoTurnConversation : Conversation :=
  { id := 1, wrapperId := 1
    messages := [{ role := "user", content := "hello" },
                 { role := "assistant", content := "hi there" }]
    createdAt := 0 }

/-- A store with one wrapper and one two-turn conversation. -/
def oneConversationStore : MemStorage :=
  { emptyStorage with
      wrappers := [plainWrapper]
      currentWrapperId := 2
      conversations := [twoTurnConversation]
      currentConversationId := 2 }

/-- A store with a system-prompt wrapper and an existing conversation that was
created with an empty messages array (as `POST /api/wrappers/1/conversations`
with body `{ messages: [] }` produces). -/
def emptySeedStore : MemStorage :=
  { emptyStorage with
      wrappers := [supportWrapper]
      currentWrapperId := 2
      conversations := [{ id := 1, wrapperId := 1, messages := [], createdAt := 0 }]
      currentConversationId := 2 }

/-- A conversation that belongs to wrapper 2. -/
def otherWrapperConversation : Conversation :=
  { id := 7, wrapperId := 2
    messages := [{ role := "user", content := "other thread" }]
    createdAt := 0 }

/-- A store with wrapper 1 and a conversation that belongs to wrapper 2. -/
def crossWrapperStore : MemStorage :=
  { emptyStorage with
      wrappers := [plainWrapper]
      currentWrapperId := 2
      conversations := [otherWrapperConversation]
      currentConversationId := 8 }

/-- A store holding only the system-prompt wrapper. -/
def oneWrapperStore : MemStorage :=
  { emptyStorage with wrappers := [supportWrapper], currentWrapperId := 2 }

/-- A create payload carrying only the required fields (name, baseModel,
userId); every optional field is absent. -/
def minimalWrapperInsert : InsertWrapper :=
  { name := "Support Bot", baseModel := "Gemini Pro", userId := 1 }

/-- A partial update supplying a new name and temperature only. -/
def renameUpdate : UpdateWrapper :=
  { name := some "Renamed", temperature := some (some 55) }

/-- A prompt-create payload addressed at wrapper 3. -/
def samplePromptInsert : InsertPrompt :=
  { name := "Greeting", content := "Say hello.", wrapperId := 3 }

/- Helper lemmas about `List.find?` under the store operations. -/

/-- Appending a record whose key is absent from the list makes `find?` for
that key return the new record. -/
theorem find?_append_singleton {α : Type} (p : α → Bool) (l : List α) (c : α)
    (h : ∀ x ∈ l, ¬ p x) (hc : p c) :
    (l ++ [c]).find? p = some c := by
  rw [List.find?_append, List.find?_eq_none.mpr h]
  simp [List.find?_cons_of_pos _ hc]

/-- In-place replacement of the matching records commutes with `find?` when
the replacement still matches. -/
theorem find?_map_replace {α : Type} (p : α → Bool) (f : α → α) (l : List α)
    (c : α) (hf : ∀ x, p x = true → p (f x) = true)
    (h : l.find? p = some c) :
    (l.map (fun x => if p x then f x else x)).find? p = some (f c) := by
  induction l with
  | nil => simp at h
  | cons x xs ih =>
      simp only [List.map_cons]
      by_cases hx : p x = true
      · rw [List.find?_cons_of_pos _ hx] at h
        injection h with h
        subst h
        rw [if_pos hx]
        exact List.find?_cons_of_pos _ (hf x hx)
      · rw [List.find?_cons_of_neg _ hx] at h
        rw [if_neg hx, List.find?_cons_of_neg _ hx]
        exact ih h

/-- Unfolds `conversationIdFresh` into the membership form needed by
`find?_append_singleton`. -/
theorem conversationIdFresh_spec {st : MemStorage}
    (h : conversationIdFresh st = true) :
    ∀ x ∈ st.conversations, ¬ (x.id == st.currentConversationId) = true := by
  intro x hx
  have hall := List.all_eq_true.mp h x hx
  simp only [bne_iff_ne, ne_eq] at hall
  simp only [beq_iff_eq]
  exact hall

/-- Claim C4 counterexample: the usage estimate is not `ceil(length / 4)` (a
2-character prompt yields 0, not `ceil(2/4) = 1`), and `total_tokens` is not
`prompt_tokens + completion_tokens` (lengths 2 and 2 give total 1 but
0 + 0 for the parts). -/
theorem estimated_usage_counterexample :
    (estimatedUsage "ab" "cd").prompt_tokens ≠ ("ab".length + 3) / 4 ∧
    (estimatedUsage "ab" "cd").total_tokens ≠
      (estimatedUsage "ab" "cd").prompt_tokens +
        (estimatedUsage "ab" "cd").completion_tokens := by
  decide

/-- Claim C4 (amended): the usage estimate is `floor(length / 4)` for the
prompt and the completion independently, while `total_tokens` is the floor of
the combined length divided by 4; hence the total can exceed the sum of the
parts by at most one, and a 12-character prompt with a 24-character response
yields prompt 3, completion 6, total 9. -/
theorem estimated_usage_floor_spec (message responseText : String) :
    estimatedUsage message responseText =
      { prompt_tokens := message.length / 4
        completion_tokens := responseText.length / 4
        total_tokens := (message.length + responseText.length) / 4 } ∧
    (estimatedUsage message responseText).prompt_tokens +
        (estimatedUsage message responseText).completion_tokens ≤
      (estimatedUsage message responseText).total_tokens ∧
    (estimatedUsage message responseText).total_tokens ≤
      (estimatedUsage message responseText).prompt_tokens +
        (estimatedUsage message responseText).completion_tokens + 1 ∧
    estimatedUsage "abcdefghijkl" "abcdefghijklmnopqrstuvwx" =
      { prompt_tokens := 3, completion_tokens := 6, total_tokens := 9 } := by
  refine ⟨rfl, ?_, ?_, by decide⟩ <;>
    · simp only [estimatedUsage]
      omega

/-- Claim C5 counterexample: a wrapper whose stored temperature and topP are 0
(inside the declared 0-100 range) is not translated to `0 / 100`; JS
truthiness sends 0 to the 0.7 / 0.9 defaults instead. -/
theorem generation_config_zero_counterexample :
    genTemperature zeroSamplingWrapper ≠ (0 : Rat) / 100 ∧
    genTopP zeroSamplingWrapper ≠ (0 : Rat) / 100 ∧
    genTemperature zeroSamplingWrapper = 7 / 10 ∧
    genTopP zeroSamplingWrapper = 9 / 10 := by
  refine ⟨?_, ?_, ?_, ?_⟩ <;>
    norm_num [genTemperature, genTopP, zeroSamplingWrapper, plainWrapper]

/-- Claim C5 (amended): for every wrapper whose stored temperature, topP and
maxTokens are present and nonzero, the model request is built with
`temperature = stored / 100`, `topP = stored / 100` and
`maxOutputTokens = stored`; in particular stored 70 becomes 0.7 and stored 90
becomes 0.9.  (Stored zeros fall back to the 0.7 / 0.9 / 2048 defaults.) -/
theorem generation_config_spec (w : Wrapper) (t p mx : Int)
    (ht : w.temperature = some t) (ht0 : t ≠ 0)
    (hp : w.topP = some p) (hp0 : p ≠ 0)
    (hmx : w.maxTokens = some mx) (hmx0 : mx ≠ 0) :
    buildGenerationConfig w =
      { temperature := (t : Rat) / 100, topP := (p : Rat) / 100
        maxOutputTokens := mx } ∧
    genTemperature { w with temperature := some 70 } = 7 / 10 ∧
    genTopP { w with topP := some 90 } = 9 / 10 := by
  refine ⟨?_, ?_, ?_⟩
  · simp [buildGenerationConfig, genTemperature, genTopP, genMaxOutputTokens,
      ht, hp, hmx, ht0, hp0, hmx0]
  · norm_num [genTemperature]
  · norm_num [genTopP]

/-- Claim C5 witness: the amended statement applied to a concrete wrapper
storing temperature 70, topP 90, maxTokens 2048. -/
theorem generation_config_spec_witness :
    plainWrapper.temperature = some 70 ∧
    plainWrapper.topP = some 90 ∧
    plainWrapper.maxTokens = some 2048 ∧
    (buildGenerationConfig plainWrapper =
        { temperature := (70 : Rat) / 100, topP := (90 : Rat) / 100
          maxOutputTokens := 2048 } ∧
      genTemperature { plainWrapper with temperature := some 70 } = 7 / 10 ∧
      genTopP { plainWrapper with topP := some 90 } = 9 / 10) :=
  ⟨rfl, rfl, rfl,
   generation_config_spec plainWrapper 70 90 2048 rfl (by decide) rfl (by decide)
     rfl (by decide)⟩

/-- Claim C6: creating a wrapper through `POST /api/wrappers` with only the
required fields does NOT apply the schema-declared database defaults: the
stored record has `temperature`, `maxTokens`, `topP`, `enableMemory`,
`knowledgeBaseIntegration` and `webSearchAccess` all absent, because the zod
insert schema merely marks defaulted columns optional and `MemStorage`
spreads the payload as-is. -/
theorem create_wrapper_defaults_not_applied :
    (postWrapperHandler emptyStorage minimalWrapperInsert 0).2.temperature = none ∧
    (postWrapperHandler emptyStorage minimalWrapperInsert 0).2.maxTokens = none ∧
    (postWrapperHandler emptyStorage minimalWrapperInsert 0).2.topP = none ∧
    (postWrapperHandler emptyStorage minimalWrapperInsert 0).2.enableMemory = none ∧
    (postWrapperHandler emptyStorage minimalWrapperInsert 0).2.knowledgeBaseIntegration = none ∧
    (postWrapperHandler emptyStorage minimalWrapperInsert 0).2.webSearchAccess = none ∧
    getWrapper (postWrapperHandler emptyStorage minimalWrapperInsert 0).1
        (postWrapperHandler emptyStorage minimalWrapperInsert 0).2.id =
      some (postWrapperHandler emptyStorage minimalWrapperInsert 0).2 ∧
    (postWrapperHandler emptyStorage minimalWrapperInsert 0).2.temperature ≠ some 70 := by
  decide

/-- Claim C7: posting a prompt under a wrapper id that does not resolve
returns 404 and leaves the store (prompt list and prompt id counter included)
exactly as it was. -/
theorem post_prompt_missing_wrapper (st : MemStorage) (wrapperId : Nat)
    (body : InsertPrompt) (now : Nat)
    (h : getWrapper st wrapperId = none) :
    postPromptHandler st wrapperId body now = (st, .err 404) := by
  simp [postPromptHandler, h]

/-- Claim C7 witness: the empty store has no wrapper 3, so posting a prompt
under wrapper 3 is a 404 no-op. -/
theorem post_prompt_missing_wrapper_witness :
    getWrapper emptyStorage 3 = none ∧
    postPromptHandler emptyStorage 3 samplePromptInsert 0 =
      (emptyStorage, .err 404) :=
  ⟨rfl, post_prompt_missing_wrapper emptyStorage 3 samplePromptInsert 0 rfl⟩

/-- Claim C9: deleting a wrapper touches only the wrappers map; the prompt,
integration and conversation stores are untouched and every parent-id lookup
returns exactly what it returned before the delete — there is no cascade. -/
theorem delete_wrapper_no_cascade (st : MemStorage) (id wid : Nat) :
    (deleteWrapper st id).1.prompts = st.prompts ∧
    (deleteWrapper st id).1.integrations = st.integrations ∧
    (deleteWrapper st id).1.conversations = st.conversations ∧
    getWrapper (deleteWrapper st id).1 id = none ∧
    getPromptsByWrapperId (deleteWrapper st id).1 wid =
      getPromptsByWrapperId st wid ∧
    getIntegrationsByWrapperId (deleteWrapper st id).1 wid =
      getIntegrationsByWrapperId st wid ∧
    getConversationsByWrapperId (deleteWrapper st id).1 wid =
      getConversationsByWrapperId st wid := by
  refine ⟨rfl, rfl, rfl, ?_, rfl, rfl, rfl⟩
  simp only [getWrapper, deleteWrapper, List.find?_eq_none]
  intro x hx
  have hmem := (List.mem_filter.mp hx).2
  simp only [Bool.not_eq_true'] at hmem
  simp [hmem]

/-- Transcript assembly starting from an empty history. -/
theorem assembleMessages_nil (w : Wrapper) (m : String) :
    assembleMessages w [] m =
      (if systemPromptTruthy w then
          [{ role := "system", content := w.systemPrompt.getD "" }]
        else [])
        ++ [{ role := "user", content := m }] := by
  simp [assembleMessages]

/-- Claim C1: a chat request continuing an existing conversation whose
provider call fails returns 500 WITHOUT the store being left as it was: the
user turn pushed into the shared `messages` array before the provider call is
already persisted inside the stored Conversation.  (Evaluates the handler at
the failing input.) -/
theorem chat_provider_failure_mutates_conversation :
    (chatHandler oneConversationStore 5
        { wrapperId := 1, message := "next question", conversationId := some 1 }
        (.error "network down")).2 =
      .err 500 "Error communicating with AI model" ∧
    getConversation (chatHandler oneConversationStore 5
        { wrapperId := 1, message := "next question", conversationId := some 1 }
        (.error "network down")).1 1 =
      some { twoTurnConversation with
              messages := twoTurnConversation.messages ++
                [{ role := "user", content := "next question" }] } ∧
    (chatHandler oneConversationStore 5
        { wrapperId := 1, message := "next question", conversationId := some 1 }
        (.error "network down")).1 ≠ oneConversationStore := by
  decide

/-- Claim C3 counterexample: continuing an existing conversation whose stored
message list is empty, under a wrapper with a non-empty systemPrompt, appends
THREE entries (system, user, assistant), not two. -/
theorem chat_existing_append_counterexample :
    let r := chatHandler emptySeedStore 9
      { wrapperId := 1, message := "hi", conversationId := some 1 }
      (.ok "hello")
    (getConversation r.1 1).map Conversation.messages =
      some [{ role := "system"
              content := "You are a customer support assistant." },
            { role := "user", content := "hi" },
            { role := "assistant", content := "hello" }] ∧
    (getConversation r.1 1).map Conversation.messages ≠
      some ([] ++ [{ role := "user", content := "hi" },
                   { role := "assistant", content := "hello" }]) := by
  decide

/-- Claim C2: a successful chat request with no conversationId persists a new
Conversation whose messages are exactly the optional system seed (present iff
the wrapper's systemPrompt is non-empty) followed by the user message and the
assistant response, and the conversationId in the response resolves to exactly
that record. -/
theorem chat_new_conversation_spec (st : MemStorage) (now : Nat)
    (wid : Nat) (msg responseText : String) (w : Wrapper)
    (hw : wid ≠ 0) (hm : msg ≠ "")
    (hget : getWrapper st wid = some w)
    (hfresh : conversationIdFresh st = true) :
    let r := chatHandler st now
      { wrapperId := wid, message := msg, conversationId := none }
      (.ok responseText)
    r.2 = .ok responseText st.currentConversationId
            (estimatedUsage msg responseText) (modelNameFor w.baseModel) ∧
    getConversation r.1 st.currentConversationId =
      some { id := st.currentConversationId, wrapperId := wid
             messages :=
               (if systemPromptTruthy w then
                   [{ role := "system", content := w.systemPrompt.getD "" }]
                 else [])
                 ++ [{ role := "user", content := msg },
                     { role := "assistant", content := responseText }]
             createdAt := now } := by
  have h400 : ¬ (wid = 0 ∨ msg = "") := by
    rintro (h | h)
    · exact hw h
    · exact hm h
  refine ⟨?_, ?_⟩ <;>
    simp only [chatHandler, if_neg h400, hget, getConversation,
      createConversation, assembleMessages_nil]
  have hfind := find?_append_singleton
    (fun c => c.id == st.currentConversationId) st.conversations
    { id := st.currentConversationId, wrapperId := wid
      messages :=
        (if systemPromptTruthy w then
            [{ role := "system", content := w.systemPrompt.getD "" }]
          else [])
          ++ [{ role := "user", content := msg }]
          ++ [{ role := "assistant", content := responseText }]
      createdAt := now }
    (conversationIdFresh_spec hfresh) (by simp)
  rw [hfind]
  simp

/-- Claim C2 witness: the spec applied to a concrete store holding one
system-prompt wrapper and no conversations. -/
theorem chat_new_conversation_spec_witness :
    getWrapper oneWrapperStore 1 = some supportWrapper ∧
    conversationIdFresh oneWrapperStore = true ∧
    ((chatHandler oneWrapperStore 3
        { wrapperId := 1, message := "hi", conversationId := none }
        (.ok "hello")).2 =
      .ok "hello" 1 (estimatedUsage "hi" "hello")
        (modelNameFor supportWrapper.baseModel) ∧
    getConversation (chatHandler oneWrapperStore 3
        { wrapperId := 1, message := "hi", conversationId := none }
        (.ok "hello")).1 1 =
      some { id := 1, wrapperId := 1
             messages :=
               [{ role := "system"
                  content := "You are a customer support assistant." },
                { role := "user", content := "hi" },
                { role := "assistant", content := "hello" }]
             createdAt := 3 }) := by
  refine ⟨rfl, rfl, ?_⟩
  exact chat_new_conversation_spec oneWrapperStore 3 1 "hi" "hello"
    supportWrapper (by decide) (by decide) rfl rfl

/-- Transcript assembly in prefix-preserving form: the prior transcript is
kept verbatim, an optional system seed is inserted only when the prior
transcript is empty, and the user turn is appended. -/
theorem assembleMessages_eq (w : Wrapper) (prior : List Message) (m : String) :
    assembleMessages w prior m =
      prior
        ++ (if systemPromptTruthy w ∧ prior = [] then
              [{ role := "system", content := w.systemPrompt.getD "" }]
            else [])
        ++ [{ role := "user", content := m }] := by
  unfold assembleMessages
  by_cases h : systemPromptTruthy w ∧ prior = []
  · rcases h with ⟨h1, h2⟩
    subst h2
    simp [h1]
  · simp [h]

/-- Replacing the messages of the stored conversation `cid` is transparent to
a lookup of `cid`: the first match sits at the same position and carries the
new messages. -/
theorem setConversationMessages_find? (st : MemStorage) (cid : Nat)
    (c : Conversation) (msgs : List Message)
    (h : getConversation st cid = some c) :
    getConversation (setConversationMessages st cid msgs) cid =
      some { c with messages := msgs } := by
  unfold getConversation setConversationMessages
  exact find?_map_replace _ (fun x => { x with messages := msgs })
    st.conversations c (fun x hx => hx) h

/-- Core lemma for the existing-conversation success path of the chat
handler: the response reports the loaded conversation's id, and that
conversation is persisted with the optional system seed (only on an empty
stored transcript) plus the new user and assistant turns appended after the
unchanged prior messages. -/
theorem chat_existing_append_core (st : MemStorage) (now : Nat)
    (wid cid : Nat) (msg responseText : String) (w : Wrapper) (c : Conversation)
    (hw : wid ≠ 0) (hm : msg ≠ "") (hcid : cid ≠ 0)
    (hget : getWrapper st wid = some w)
    (hc : getConversation st cid = some c) :
    let r := chatHandler st now
      { wrapperId := wid, message := msg, conversationId := some cid }
      (.ok responseText)
    r.2 = .ok responseText c.id (estimatedUsage msg responseText)
            (modelNameFor w.baseModel) ∧
    getConversation r.1 cid =
      some { c with messages :=
        c.messages
          ++ (if systemPromptTruthy w ∧ c.messages = [] then
                [{ role := "system", content := w.systemPrompt.getD "" }]
              else [])
          ++ [{ role := "user", content := msg },
              { role := "assistant", content := responseText }] } := by
  have h400 : ¬ (wid = 0 ∨ msg = "") := by
    rintro (h | h)
    · exact hw h
    · exact hm h
  have hc' : st.conversations.find? (fun x => x.id == cid) = some c := hc
  have hcid2 : c.id = cid := by
    have hp := List.find?_some hc'
    simpa using hp
  subst hcid2
  have h1 := setConversationMessages_find? st c.id c
    (assembleMessages w c.messages msg) hc
  have h2 := setConversationMessages_find?
    (setConversationMessages st c.id (assembleMessages w c.messages msg)) c.id
    { c with messages := assembleMessages w c.messages msg }
    (assembleMessages w c.messages msg
      ++ [{ role := "assistant", content := responseText }]) h1
  refine ⟨?_, ?_⟩ <;>
    simp only [chatHandler, if_neg h400, if_neg hcid, hget, hc]
  rw [h2]
  simp [assembleMessages_eq]

/-- Claim C3 (amended): a successful chat request continuing an existing
conversation appends exactly the user and assistant turns after all prior
messages, which stay unchanged and in order — except that when the stored
transcript is empty and the wrapper's systemPrompt is non-empty, a system
message is additionally inserted before the two new turns. -/
theorem chat_existing_conversation_append (st : MemStorage) (now : Nat)
    (wid cid : Nat) (msg responseText : String) (w : Wrapper) (c : Conversation)
    (hw : wid ≠ 0) (hm : msg ≠ "") (hcid : cid ≠ 0)
    (hget : getWrapper st wid = some w)
    (hc : getConversation st cid = some c) :
    let r := chatHandler st now
      { wrapperId := wid, message := msg, conversationId := some cid }
      (.ok responseText)
    r.2 = .ok responseText c.id (estimatedUsage msg responseText)
            (modelNameFor w.baseModel) ∧
    getConversation r.1 cid =
      some { c with messages :=
        c.messages
          ++ (if systemPromptTruthy w ∧ c.messages = [] then
                [{ role := "system", content := w.systemPrompt.getD "" }]
              else [])
          ++ [{ role := "user", content := msg },
              { role := "assistant", content := responseText }] } :=
  chat_existing_append_core st now wid cid msg responseText w c
    hw hm hcid hget hc

/-- Claim C3 witness: continuing a two-turn conversation appends exactly the
new user and assistant turns after the unchanged prior turns. -/
theorem chat_existing_conversation_append_witness :
    getWrapper oneConversationStore 1 = some plainWrapper ∧
    getConversation oneConversationStore 1 = some twoTurnConversation ∧
    ((chatHandler oneConversationStore 5
        { wrapperId := 1, message := "next question", conversationId := some 1 }
        (.ok "sure")).2 =
      .ok "sure" twoTurnConversation.id
        (estimatedUsage "next question" "sure")
        (modelNameFor plainWrapper.baseModel) ∧
    getConversation (chatHandler oneConversationStore 5
        { wrapperId := 1, message := "next question", conversationId := some 1 }
        (.ok "sure")).1 1 =
      some { twoTurnConversation with messages :=
        twoTurnConversation.messages
          ++ (if systemPromptTruthy plainWrapper ∧
                twoTurnConversation.messages = [] then
                [{ role := "system"
                   content := plainWrapper.systemPrompt.getD "" }]
              else [])
          ++ [{ role := "user", content := "next question" },
              { role := "assistant", content := "sure" }] }) := by
  refine ⟨rfl, rfl, ?_⟩
  exact chat_existing_conversation_append oneConversationStore 5 1 1
    "next question" "sure" plainWrapper twoTurnConversation
    (by decide) (by decide) (by decide) rfl rfl

/-- Claim C10: the chat endpoint never checks that the resolved conversation
belongs to the requested wrapper: when the conversationId resolves to a
conversation of a DIFFERENT wrapper, the handler still loads its messages,
extends them, and on success persists the new turns into that same
conversation, which keeps its original (other) wrapperId. -/
theorem chat_cross_wrapper_conversation (st : MemStorage) (now : Nat)
    (wid cid : Nat) (msg responseText : String) (w : Wrapper) (c : Conversation)
    (hw : wid ≠ 0) (hm : msg ≠ "") (hcid : cid ≠ 0)
    (hget : getWrapper st wid = some w)
    (hc : getConversation st cid = some c)
    (hcross : c.wrapperId ≠ wid) :
    let r := chatHandler st now
      { wrapperId := wid, message := msg, conversationId := some cid }
      (.ok responseText)
    r.2 = .ok responseText c.id (estimatedUsage msg responseText)
            (modelNameFor w.baseModel) ∧
    getConversation r.1 cid =
      some { c with messages :=
        c.messages
          ++ (if systemPromptTruthy w ∧ c.messages = [] then
                [{ role := "system", content := w.systemPrompt.getD "" }]
              else [])
          ++ [{ role := "user", content := msg },
              { role := "assistant", content := responseText }] } ∧
    ({ c with messages :=
        c.messages
          ++ (if systemPromptTruthy w ∧ c.messages = [] then
                [{ role := "system", content := w.systemPrompt.getD "" }]
              else [])
          ++ [{ role := "user", content := msg },
              { role := "assistant", content := responseText }] } :
      Conversation).wrapperId ≠ wid := by
  obtain ⟨hres, hstore⟩ := chat_existing_append_core st now wid cid
    msg responseText w c hw hm hcid hget hc
  exact ⟨hres, hstore, hcross⟩

/-- Claim C10 witness: the cross-wrapper behavior at a concrete store where
the requested wrapper is 1 but conversation 7 belongs to wrapper 2. -/
theorem chat_cross_wrapper_conversation_witness :
    getWrapper crossWrapperStore 1 = some plainWrapper ∧
    getConversation crossWrapperStore 7 = some otherWrapperConversation ∧
    otherWrapperConversation.wrapperId ≠ 1 ∧
    ((chatHandler crossWrapperStore 4
        { wrapperId := 1, message := "hi", conversationId := some 7 }
        (.ok "ok")).2 =
      .ok "ok" otherWrapperConversation.id (estimatedUsage "hi" "ok")
        (modelNameFor plainWrapper.baseModel) ∧
    getConversation (chatHandler crossWrapperStore 4
        { wrapperId := 1, message := "hi", conversationId := some 7 }
        (.ok "ok")).1 7 =
      some { otherWrapperConversation with messages :=
        otherWrapperConversation.messages
          ++ (if systemPromptTruthy plainWrapper ∧
                otherWrapperConversation.messages = [] then
                [{ role := "system"
                   content := plainWrapper.systemPrompt.getD "" }]
              else [])
          ++ [{ role := "user", content := "hi" },
              { role := "assistant", content := "ok" }] } ∧
    ({ otherWrapperConversation with messages :=
        otherWrapperConversation.messages
          ++ (if systemPromptTruthy plainWrapper ∧
                otherWrapperConversation.messages = [] then
                [{ role := "system"
                   content := plainWrapper.systemPrompt.getD "" }]
              else [])
          ++ [{ role := "user", content := "hi" },
              { role := "assistant", content := "ok" }] } :
      Conversation).wrapperId ≠ 1) := by
  refine ⟨rfl, rfl, by decide, ?_⟩
  exact chat_cross_wrapper_conversation crossWrapperStore 4 1 7 "hi" "ok"
    plainWrapper otherWrapperConversation (by decide) (by decide) (by decide)
    rfl rfl (by decide)

/-- Claim C8: updating an existing wrapper merges exactly the supplied fields
into the stored record (each field is the supplied value when present, the
stored one otherwise), never alters `id` or `createdAt`, returns and persists
the merged record, and updating a nonexistent id returns NotFound leaving the
store untouched. -/
theorem update_wrapper_spec (st st2 : MemStorage) (id id2 : Nat)
    (u : UpdateWrapper) (w : Wrapper)
    (h : getWrapper st id = some w) (h2 : getWrapper st2 id2 = none) :
    (updateWrapper st id u).2 = some (mergeWrapper w u) ∧
    (mergeWrapper w u).id = w.id ∧
    (mergeWrapper w u).createdAt = w.createdAt ∧
    (mergeWrapper w u).name = u.name.getD w.name ∧
    (mergeWrapper w u).description = u.description.getD w.description ∧
    (mergeWrapper w u).baseModel = u.baseModel.getD w.baseModel ∧
    (mergeWrapper w u).systemPrompt = u.systemPrompt.getD w.systemPrompt ∧
    (mergeWrapper w u).temperature = u.temperature.getD w.temperature ∧
    (mergeWrapper w u).maxTokens = u.maxTokens.getD w.maxTokens ∧
    (mergeWrapper w u).topP = u.topP.getD w.topP ∧
    (mergeWrapper w u).enableMemory = u.enableMemory.getD w.enableMemory ∧
    (mergeWrapper w u).knowledgeBaseIntegration =
      u.knowledgeBaseIntegration.getD w.knowledgeBaseIntegration ∧
    (mergeWrapper w u).webSearchAccess =
      u.webSearchAccess.getD w.webSearchAccess ∧
    (mergeWrapper w u).userId = u.userId.getD w.userId ∧
    getWrapper (updateWrapper st id u).1 id = some (mergeWrapper w u) ∧
    updateWrapper st2 id2 u = (st2, none) := by
  have h' : st.wrappers.find? (fun x => x.id == id) = some w := h
  have hbeq := List.find?_some h'
  refine ⟨?_, rfl, rfl, rfl, rfl, rfl, rfl, rfl, rfl, rfl, rfl, rfl, rfl, rfl,
    ?_, ?_⟩
  · simp only [updateWrapper, h]
  · simp only [updateWrapper, h]
    unfold getWrapper
    exact find?_map_replace (fun x => x.id == id) (fun _ => mergeWrapper w u)
      st.wrappers w (fun x _ => hbeq) h'
  · simp only [updateWrapper, h2]

/-- Claim C8 witness: a rename-and-retemperature update of the stored support
wrapper, together with a NotFound update on the empty store. -/
theorem update_wrapper_spec_witness :
    getWrapper oneWrapperStore 1 = some supportWrapper ∧
    getWrapper emptyStorage 9 = none ∧
    ((updateWrapper oneWrapperStore 1 renameUpdate).2 =
        some (mergeWrapper supportWrapper renameUpdate) ∧
      (mergeWrapper supportWrapper renameUpdate).id = supportWrapper.id ∧
      (mergeWrapper supportWrapper renameUpdate).createdAt =
        supportWrapper.createdAt ∧
      (mergeWrapper supportWrapper renameUpdate).name =
        renameUpdate.name.getD supportWrapper.name ∧
      (mergeWrapper supportWrapper renameUpdate).description =
        renameUpdate.description.getD supportWrapper.description ∧
      (mergeWrapper supportWrapper renameUpdate).baseModel =
        renameUpdate.baseModel.getD supportWrapper.baseModel ∧
      (mergeWrapper supportWrapper renameUpdate).systemPrompt =
        renameUpdate.systemPrompt.getD supportWrapper.systemPrompt ∧
      (mergeWrapper supportWrapper renameUpdate).temperature =
        renameUpdate.temperature.getD supportWrapper.temperature ∧
      (mergeWrapper supportWrapper renameUpdate).maxTokens =
        renameUpdate.maxTokens.getD supportWrapper.maxTokens ∧
      (mergeWrapper supportWrapper renameUpdate).topP =
        renameUpdate.topP.getD supportWrapper.topP ∧
      (mergeWrapper supportWrapper renameUpdate).enableMemory =
        renameUpdate.enableMemory.getD supportWrapper.enableMemory ∧
      (mergeWrapper supportWrapper renameUpdate).knowledgeBaseIntegration =
        renameUpdate.knowledgeBaseIntegration.getD
          supportWrapper.knowledgeBaseIntegration ∧
      (mergeWrapper supportWrapper renameUpdate).webSearchAccess =
        renameUpdate.webSearchAccess.getD supportWrapper.webSearchAccess ∧
      (mergeWrapper supportWrapper renameUpdate).userId =
        renameUpdate.userId.getD supportWrapper.userId ∧
      getWrapper (updateWrapper oneWrapperStore 1 renameUpdate).1 1 =
        some (mergeWrapper supportWrapper renameUpdate) ∧
      updateWrapper emptyStorage 9 renameUpdate = (emptyStorage, none)) := by
  refine ⟨rfl, rfl, ?_⟩
  exact update_wrapper_spec oneWrapperStore emptyStorage 1 9 renameUpdate
    supportWrapper rfl rfl

end ModelAdaptor
